import Mathlib

/-!
Verification of the inkflow streaming generation / reconnect subsystem.

This file shallowly embeds the core of the repository:
  * `app/services/stream_manager.py` — `StreamGenerationManager` (producer side
    state machine and the client relay loop `stream_to_client`),
  * `app/services/chapter_cache.py`  — `ChapterCacheService` (Redis adapter),
  * `app/services/chapter.py`        — the `ChapterService` operations the core calls,
  * `app/api/v1/chapters.py`         — the reconnect endpoint and its SSE generator,
  * `app/core/security.py`           — the resume-token codec.

Python strings are modelled as `List Char` (a Python `str` is a sequence of
code points; slicing `s[k:]` is `List.drop k`, `len` is `List.length`).
Fallible paths are modelled with `Except`/`Option`; the async machinery is
modelled by explicit state passing, with one relay loop iteration becoming a
step function on the relay state and the polled observations becoming a list.
-/

namespace Inkflow

/-- Python strings, modelled as lists of code points. -/
abbrev Str := List Char

/-- Chapter generation status, from `app/models/chapter.py` (`ChapterStatus`). -/
inductive ChapterStatus
  | generating
  | completed
  | failed
deriving DecidableEq, Repr

/-- SSE events emitted by the streaming endpoints.  Payloads that none of the
verified properties inspect (the `complete` payload, the `generating` notice
payload) are dropped; `content` keeps its text, `summary` its title and
`statusNote`/`error` their message. -/
inductive SSEEvent
  | summary (title : Str)
  | content (text : Str)
  | statusNote (msg : String)
  | complete
  | generatingNote
  | error (msg : String)
deriving DecidableEq, Repr

/-- The texts of the `content` events of an event list, in order. -/
def contentTexts : List SSEEvent → List Str
  | [] => []
  | SSEEvent.content t :: rest => t :: contentTexts rest
  | _ :: rest => contentTexts rest

/-! ## The client relay loop (`StreamGenerationManager.stream_to_client`)

`stream_to_client` (stream_manager.py:319-399) polls the cache every 100ms.
One loop iteration reads the cache entry (possibly absent), emits the summary
once, emits the incremental content delta, then checks the chapter status and
the timeout counter.  We embed one iteration as `relayStep` and the loop as
`relayRun` over a list of observations (cache entry, chapter status). -/

/-- What the relay reads from a cache entry: `data.get('title', '')` and
`data.get('content', '')` (stream_manager.py:335-336). -/
structure RelayEntry where
  title : Str
  content : Str
deriving DecidableEq, Repr

/-- Relay loop state: `last_content_length`, `no_update_count`, `title_sent`
(stream_manager.py:321-323). -/
structure RelayState where
  lastContentLength : Nat
  noUpdateCount : Nat
  titleSent : Bool
deriving DecidableEq, Repr

/-- Initial relay state (stream_manager.py:321-323). -/
def relayInit : RelayState := ⟨0, 0, false⟩

/-- Source `MAX_NO_UPDATE = 600` (stream_manager.py:324). -/
def MAX_NO_UPDATE : Nat := 600

/-- The cache-reading part of one relay iteration (stream_manager.py:331-354):
if the entry is present, emit the summary on first sight of a non-empty title,
then either emit the delta `content[last_content_length:]` and reset the
no-update counter, or increment the counter.  An absent entry changes nothing
(the counter is only touched inside the `if data_str:` block). -/
def relayCacheStep (obs : Option RelayEntry) (s : RelayState) :
    List SSEEvent × RelayState :=
  match obs with
  | none => ([], s)
  | some d =>
    let summaryEvs : List SSEEvent :=
      if d.title ≠ [] ∧ s.titleSent = false then [SSEEvent.summary d.title] else []
    let titleSent' : Bool :=
      if d.title ≠ [] ∧ s.titleSent = false then true else s.titleSent
    if s.lastContentLength < d.content.length then
      (summaryEvs ++ [SSEEvent.content (d.content.drop s.lastContentLength)],
       ⟨d.content.length, 0, titleSent'⟩)
    else
      (summaryEvs, ⟨s.lastContentLength, s.noUpdateCount + 1, titleSent'⟩)

/-- One full relay iteration (stream_manager.py:328-394): cache processing,
then the status check (COMPLETED emits `complete` and stops, FAILED emits
`error` and stops), then the timeout check.  The boolean is true when the
loop breaks. -/
def relayStep (obs : Option RelayEntry) (st : ChapterStatus) (s : RelayState) :
    List SSEEvent × RelayState × Bool :=
  match relayCacheStep obs s with
  | (evs, s') =>
    match st with
    | ChapterStatus.completed => (evs ++ [SSEEvent.complete], s', true)
    | ChapterStatus.failed => (evs ++ [SSEEvent.error "章节生成失败"], s', true)
    | ChapterStatus.generating =>
      if MAX_NO_UPDATE ≤ s'.noUpdateCount then
        (evs ++ [SSEEvent.error "生成超时"], s', true)
      else (evs, s', false)

/-- The relay loop run over a finite list of poll observations, stopping as
soon as an iteration breaks. -/
def relayRun : List (Option RelayEntry × ChapterStatus) → RelayState →
    List SSEEvent × RelayState × Bool
  | [], s => ([], s, false)
  | t :: rest, s =>
    if (relayStep t.1 t.2 s).2.2 then
      ((relayStep t.1 t.2 s).1, (relayStep t.1 t.2 s).2.1, true)
    else
      ((relayStep t.1 t.2 s).1 ++ (relayRun rest (relayStep t.1 t.2 s).2.1).1,
       (relayRun rest (relayStep t.1 t.2 s).2.1).2)

/-- Source `Ext a b` — the buffer `b` extends the buffer `a` (content only grows). -/
def Ext (a b : Str) : Prop := ∃ t, b = a ++ t

/-- The relay run where every poll sees the chapter in GENERATING status
(the steady-state case of stream_manager.py:328-394). -/
def relayGen (es : List RelayEntry) (s : RelayState) :
    List SSEEvent × RelayState × Bool :=
  relayRun (es.map fun e => (some e, ChapterStatus.generating)) s

/-- The summary events possibly emitted by a relay tick (stream_manager.py:340-342). -/
def summaryEvs (d : RelayEntry) (s : RelayState) : List SSEEvent :=
  if d.title ≠ [] ∧ s.titleSent = false then [SSEEvent.summary d.title] else []

/-- The title-sent flag after a relay tick (stream_manager.py:340-342). -/
def titleSentAfter (d : RelayEntry) (s : RelayState) : Bool :=
  if d.title ≠ [] ∧ s.titleSent = false then true else s.titleSent

/-! ## Data model: cache entries, option rows, chapter rows -/

/-- The JSON payload `ChapterCacheService.set_generating_content` stores under
the generating key (chapter_cache.py:60-68); the `updated_at` field is not
read by any verified operation and is omitted. -/
structure GenEntry where
  chapterId : Nat
  novelId : Nat
  sessionId : String
  title : Str
  content : Str
  contentLength : Nat
deriving DecidableEq, Repr

/-- A chapter option row (models/option.py `Option`): it has `option_text` and
`impact_description` attributes — and none named `text`, `impact_hint` or
`tags`, which matters to the reconnect completion path. -/
structure OptionRow where
  id : Nat
  chapterId : Nat
  optionOrder : Nat
  optionText : Str
  impactDescription : Str
deriving DecidableEq, Repr

/-- A chapter row (models/chapter.py `Chapter`), restricted to the columns the
streaming core reads and writes.  `content` is a nullable Text column;
`content_length` is non-null with default 0; `session_id` is nullable. -/
structure ChapterRow where
  id : Nat
  novelId : Nat
  title : Str
  summary : Option Str
  content : Option Str
  contentLength : Nat
  status : ChapterStatus
  sessionId : Option String
  options : List OptionRow
deriving DecidableEq, Repr

/-! ## The reconnect endpoint (`app/api/v1/chapters.py:295-487`)

`reconnect_chapter_generation` verifies the resume token and then returns a
`StreamingResponse` whose generator `reconnect_stream` (lines 355-469) reads
the current content (cache first, durable store as fallback), checks the
session id, and streams the diff `current_content[sent_length:]` in slices of
5 characters.  `HTTPException`s raised inside the generator are caught there
(line 465) and yielded as SSE `error` events on the already-started stream. -/

def staleSessionMsg : String := "session_id不匹配，可能是新的生成会话"

def chapterMissingMsg : String := "章节不存在"

def chapterFailedMsg : String := "章节生成失败"

/-- The text of the `error` event produced when building `options_data` in the
COMPLETED branch (chapters.py:446-453): the code reads `opt.text`, an
attribute the `Option` model does not have, so Python raises AttributeError,
which the generic handler (line 467-469) turns into this event. -/
def optionAttrErrorMsg : String := "重连失败: 'Option' object has no attribute 'text'"

/-- The 5-character slicing `for i in range(0, len(diff_content), 5)`
(chapters.py:428-431). -/
def chunk5 (l : Str) : List Str :=
  if h : l = [] then []
  else l.take 5 :: chunk5 (l.drop 5)
termination_by l.length
decreasing_by
  have hpos : 0 < l.length := List.length_pos.mpr h
  simp only [List.length_drop]
  omega

/-- Status resolution of the reconnect generator (chapters.py:405-410 and
434-439): the cache status key wins; on a miss the durable row's status is
used; with no row at all the code defaults to COMPLETED. -/
def resolveStatus (cacheStatus : Option ChapterStatus) (row : Option ChapterRow) :
    ChapterStatus :=
  match cacheStatus with
  | some st => st
  | none =>
    match row with
    | some ch => ch.status
    | none => ChapterStatus.completed

/-- The events ending the diff-streaming path when the resolved status is
COMPLETED (chapters.py:441-455): the chapter is re-read; when it exists and
has options, building `options_data` dereferences the non-existent `opt.text`
attribute and the generic exception handler yields an `error` event instead
of the `complete` event. -/
def completeTailEvents (row : Option ChapterRow) : List SSEEvent :=
  match row with
  | some ch =>
    if ch.options ≠ [] then [SSEEvent.error optionAttrErrorMsg] else [SSEEvent.complete]
  | none => [SSEEvent.complete]

/-- The terminal/continuation event of the no-new-content path
(chapters.py:412-417). -/
def noDiffTailEvent (cacheStatus : Option ChapterStatus) (row : Option ChapterRow) :
    SSEEvent :=
  match resolveStatus cacheStatus row with
  | ChapterStatus.completed => SSEEvent.complete
  | ChapterStatus.generating => SSEEvent.generatingNote
  | ChapterStatus.failed => SSEEvent.error chapterFailedMsg

/-- Steps 4-6 of the reconnect generator (chapters.py:399-463), after the
content source has been resolved to `content`/`currentLength`. -/
def reconnectDeliver (content : Str) (currentLength : Nat) (row : Option ChapterRow)
    (cacheStatus : Option ChapterStatus) (sentLength : Nat) : List SSEEvent :=
  if currentLength ≤ sentLength then
    [SSEEvent.statusNote "已是最新内容", noDiffTailEvent cacheStatus row]
  else
    SSEEvent.statusNote
        ("正在发送 " ++ toString (content.drop sentLength).length ++ " 字符的新内容...") ::
      ((chunk5 (content.drop sentLength)).map SSEEvent.content ++
        (match resolveStatus cacheStatus row with
         | ChapterStatus.completed => completeTailEvents row
         | ChapterStatus.generating => [SSEEvent.generatingNote]
         | ChapterStatus.failed => [SSEEvent.error chapterFailedMsg]))

/-- The durable-store session check of the reconnect generator
(chapters.py:391): `if chapter.session_id and chapter.session_id !=
token_session_id` — a None or empty session id passes. -/
def dbSessionRejected (ch : ChapterRow) (tokenSessionId : String) : Bool :=
  match ch.sessionId with
  | some sid => sid != "" && sid != tokenSessionId
  | none => false

/-- The reconnect SSE generator `reconnect_stream` (chapters.py:355-469). -/
def reconnectStream (cached : Option GenEntry) (row : Option ChapterRow)
    (cacheStatus : Option ChapterStatus) (tokenSessionId : String)
    (sentLength : Nat) : List SSEEvent :=
  match cached with
  | some e =>
    if e.sessionId ≠ tokenSessionId then [SSEEvent.error staleSessionMsg]
    else reconnectDeliver e.content e.contentLength row cacheStatus sentLength
  | none =>
    match row with
    | none => [SSEEvent.error chapterMissingMsg]
    | some ch =>
      if dbSessionRejected ch tokenSessionId then [SSEEvent.error staleSessionMsg]
      else reconnectDeliver (ch.content.getD []) ch.contentLength row cacheStatus sentLength

/-- The content the reconnect generator serves: the cache entry's content when
the cache hits, otherwise the durable row's content (chapters.py:357-397). -/
def currentContent (cached : Option GenEntry) (row : Option ChapterRow) : Str :=
  match cached with
  | some e => e.content
  | none =>
    match row with
    | some ch => ch.content.getD []
    | none => []

/-! ## The resume-token codec (`app/core/security.py:53-134`)

The tokens are JWTs signed with `settings.SECRET_KEY`.  The `jose` library is
external to the repository; it is modelled abstractly but executably: a
signed token records its payload and the key it was signed with, and decoding
succeeds exactly when the keys match (signature check) and, when an `exp`
claim is present, the current time is strictly before it (otherwise
`ExpiredSignatureError`). -/

/-- The claims a resume-token payload may carry (security.py:78-88); a `none`
field models a missing claim in a foreign token. -/
structure TokenPayload where
  chapterId : Option Int
  sessionId : Option String
  novelId : Option Int
  userId : Option Int
  sentLength : Option Int
  typ : Option String
  iat : Option Int
  exp : Option Int
deriving DecidableEq, Repr

/-- A JWT: payload plus the key it was signed with. -/
structure SignedToken where
  payload : TokenPayload
  signedWith : String
deriving DecidableEq, Repr

/-- Model of `jose.jwt.decode(token, key, algorithms=[ALGORITHM])`. -/
def jwtDecode (t : SignedToken) (key : String) (now : Int) : Option TokenPayload :=
  if t.signedWith ≠ key then none
  else
    match t.payload.exp with
    | some e => if e ≤ now then none else some t.payload
    | none => some t.payload

/-- Source `timedelta(minutes=10)` (security.py:87), in seconds. -/
def RESUME_TOKEN_TTL : Int := 600

/-- Source `create_resume_token` (security.py:53-91). -/
def create_resume_token (chapterId : Int) (sessionId : String)
    (novelId userId sentLength : Int) (now : Int) (key : String) : SignedToken :=
  ⟨{ chapterId := some chapterId
     sessionId := some sessionId
     novelId := some novelId
     userId := some userId
     sentLength := some sentLength
     typ := some "resume"
     iat := some now
     exp := some (now + RESUME_TOKEN_TTL) }, key⟩

/-- Source `verify_resume_token` (security.py:94-134): decode, then require
`type == "resume"` and the presence of the five required fields. -/
def verify_resume_token (t : SignedToken) (key : String) (now : Int) :
    Option TokenPayload :=
  match jwtDecode t key now with
  | none => none
  | some p =>
    if p.typ ≠ some "resume" then none
    else if p.chapterId = none ∨ p.sessionId = none ∨ p.novelId = none
        ∨ p.userId = none ∨ p.sentLength = none then none
    else some p

/-! ## The reconnect HTTP endpoint (claim C4) -/

/-- An HTTP error response (status code and detail), as raised by
`HTTPException` before the streaming response starts. -/
structure HTTPError where
  code : Nat
  detail : String
deriving DecidableEq, Repr

/-- The reconnect endpoint `reconnect_chapter_generation`
(chapters.py:295-487).  Token verification and the user/novel ownership
checks run before the `StreamingResponse` is created and can reject with an
HTTP error; once the generator is handed to `StreamingResponse`, everything
raised inside it — including the stale-session `HTTPException(400)` of
chapters.py:367-371 and 391-395 — is caught by the generator's own handlers
(chapters.py:465-469) and yielded as an SSE `error` event on the HTTP-200
stream. -/
def reconnect_chapter_generation (tok : SignedToken) (key : String) (now : Int)
    (currentUserId : Int) (novelId : Int) (cached : Option GenEntry)
    (row : Option ChapterRow) (cacheStatus : Option ChapterStatus) :
    Except HTTPError (List SSEEvent) :=
  match verify_resume_token tok key now with
  | none => Except.error ⟨401, "无效或过期的resume_token"⟩
  | some p =>
    if p.userId ≠ some currentUserId then Except.error ⟨403, "无权访问此章节"⟩
    else if p.novelId ≠ some novelId then Except.error ⟨400, "novel_id不匹配"⟩
    else
      Except.ok (reconnectStream cached row cacheStatus (p.sessionId.getD "")
        (p.sentLength.getD 0).toNat)

/-! ## The source cache service terminal operations (`chapter_cache.py`) -/

/-- The Redis keyspace touched by `ChapterCacheService`, as three maps keyed
by chapter id (the key strings `chapter:generating:{id}`,
`chapter:status:{id}` and `chapter:error:{id}` are injective per id). -/
structure CacheSrcState where
  generating : Nat → Option GenEntry
  statusKey : Nat → Option String
  errKey : Nat → Option String

/-- Source `ChapterCacheService.set_generating_content` (chapter_cache.py:33-73):
full overwrite of the generating entry, then `set_status(GENERATING)`. -/
def cacheSvcSetGenerating (st : CacheSrcState) (chapterId : Nat)
    (sessionId : String) (title content : Str) (contentLength : Nat)
    (novelId : Nat) : CacheSrcState :=
  { st with
    generating := fun j => if j = chapterId then
        some ⟨chapterId, novelId, sessionId, title, content, contentLength⟩
      else st.generating j
    statusKey := fun j => if j = chapterId then some "generating" else st.statusKey j }

/-- Source `ChapterCacheService.get_generating_content` (chapter_cache.py:75-105). -/
def cacheSvcGetGenerating (st : CacheSrcState) (chapterId : Nat) : Option GenEntry :=
  st.generating chapterId

/-- Source `ChapterCacheService.complete_generation` (chapter_cache.py:156-181):
delete the generating entry, set the status key to completed (with a TTL the
model does not track). -/
def cacheSvcComplete (st : CacheSrcState) (chapterId : Nat) : CacheSrcState :=
  { st with
    generating := fun j => if j = chapterId then none else st.generating j
    statusKey := fun j => if j = chapterId then some "completed" else st.statusKey j }

/-- Source `ChapterCacheService.fail_generation` (chapter_cache.py:183-214): delete
the generating entry, set the status key to failed, store the error info. -/
def cacheSvcFail (st : CacheSrcState) (chapterId : Nat) (errorMessage : String) :
    CacheSrcState :=
  { generating := fun j => if j = chapterId then none else st.generating j
    statusKey := fun j => if j = chapterId then some "failed" else st.statusKey j
    errKey := fun j => if j = chapterId then some errorMessage else st.errKey j }

/-! ## The stream generation manager (`stream_manager.py:35-257`)

`StreamGenerationManager` calls `ChapterCacheService.set_generating_content
(chapter_id, title, content)` and `ChapterCacheService.delete_generating_content
(chapter_id)` and `ChapterService.update_chapter_status(...)`.  The
`delete_generating_content` and `update_chapter_status` methods do not exist
anywhere under src/ (only these call sites do): those two adapters are
modelled from the spec below (sections 4.2 and 6).  The
`set_generating_content` that DOES exist in src (chapter_cache.py:33-73) has
a different, incompatible signature — the manager was written against a newer
iteration ("Phase 2" in its comments) — so the manager's calls to it are
modelled by Python keyword binding against the src parameter list, and raise
TypeError (see `appendChunkSrc` and `startGenerationSrc`). -/

/-- The manager's world: the phase-2 cache entries (title and content only —
exactly what the relay reads) and the durable chapter rows. -/
structure World where
  cacheGen : Nat → Option RelayEntry
  rows : Nat → Option ChapterRow

/-- Modelled from the spec: the phase-2 cache adapter's `delete(chapterId)` —
idempotent, absence is not an error (§4.2) — missing from src/, where
stream_manager.py:221 and 250 call `delete_generating_content`. -/
def cacheDelete (w : World) (chapterId : Nat) : World :=
  { w with cacheGen := fun j => if j = chapterId then none else w.cacheGen j }

/-- Modelled from the spec: the durable store's `updateChapterStatus(id,
status, session_id?, ...)` (§6) — `ChapterService` has no
`update_chapter_status` method in src/, where stream_manager.py:104-109,
212-216 and 241-244 call it.  Timestamps are outside the model. -/
def updateChapterStatus (w : World) (chapterId : Nat) (st : ChapterStatus)
    (sessionId : Option String) : World :=
  { w with rows := fun j => if j = chapterId then
      (w.rows chapterId).map (fun ch =>
        { ch with
          status := st
          sessionId := (match sessionId with
                        | some s => some s
                        | none => ch.sessionId) })
    else w.rows j }

/-- The manager's own state (stream_manager.py:56-69). -/
structure Manager where
  chapterId : Nat
  novelId : Nat
  sessionId : String
  title : Str
  contentBuffer : Str
  contentLength : Nat
  lastSyncTime : Int
  generationStarted : Bool
deriving DecidableEq, Repr

def Manager.init (chapterId novelId : Nat) (sessionId : String) : Manager :=
  ⟨chapterId, novelId, sessionId, [], [], 0, 0, false⟩

/-- The errors the manager's operations can signal.  `alreadyGenerating` is
the error the spec requires for a duplicate start; it is a constructor here
so that its absence from every code path is an expressible fact. -/
inductive ManagerErr
  | alreadyGenerating
  | notStarted (msg : String)
deriving DecidableEq, Repr

/-- A world with a live generation for chapter 1001 under session "s1". -/
def liveRow : ChapterRow :=
  ⟨1001, 1, "T1".data, none, some [], 0, ChapterStatus.generating, some "s1", []⟩

def liveWorld : World :=
  ⟨fun j => if j = 1001 then some ⟨"T1".data, "abc".data⟩ else none,
   fun j => if j = 1001 then some liveRow else none⟩

/-! ## fail_generation (claim C7) -/

/-- Source `fail_generation` (stream_manager.py:225-252): a no-op before
`start_generation` (line 235-236); then a best-effort status write — the
`try/except` of lines 239-247 logs and swallows any failure, modelled by the
`statusWriteFails` flag — followed by the unconditional cache delete of line
250 (the spec-modelled `delete`).  The function returns normally in every
case: a status-write failure is never raised in place of the original
error. -/
def failGeneration (m : Manager) (w : World) (statusWriteFails : Bool) :
    Manager × World :=
  if m.generationStarted = false then (m, w)
  else
    let w1 := if statusWriteFails then w
      else updateChapterStatus w m.chapterId ChapterStatus.failed none
    (m, cacheDelete w1 m.chapterId)

/-! ## complete_generation and the durable content writes (claims C8, C9) -/

/-- One entry of the `options` payload handed to `complete_generation`
(`option_data["text"]`, `option_data.get("impact_hint", "")`). -/
structure OptionData where
  text : Str
  impactHint : Option Str
deriving DecidableEq, Repr

/-- The option rows built by `ChapterService.create_chapter_options`
(chapter.py:68-95): ids `chapter_id * 10 + option_order`, orders 1..N. -/
def mkOptionRows (chapterId : Nat) : Nat → List OptionData → List OptionRow
  | _, [] => []
  | i, o :: rest =>
    ⟨chapterId * 10 + i, chapterId, i, o.text, o.impactHint.getD []⟩
      :: mkOptionRows chapterId (i + 1) rest

/-- Source `ChapterService.create_chapter_options` (chapter.py:68-95), added to the
owning chapter row. -/
def create_chapter_options (w : World) (chapterId : Nat)
    (options : List OptionData) : World :=
  { w with rows := fun j =>
      if j = chapterId then
        (w.rows chapterId).map (fun ch =>
          { ch with options := ch.options ++ mkOptionRows chapterId 1 options })
      else w.rows j }

/-- The final content write of `complete_generation`
(stream_manager.py:186-203): set content, set content_length to
`len(final_content)`, set the summary only when truthy (non-None and
non-empty). -/
def completeContentWrite (row : ChapterRow) (finalContent : Str)
    (summary : Option Str) : ChapterRow :=
  { row with
    content := some finalContent
    contentLength := finalContent.length
    summary := (match summary with
                | some s => if s = [] then row.summary else some s
                | none => row.summary) }

def writeFinalContent (w : World) (chapterId : Nat) (finalContent : Str)
    (summary : Option Str) : World :=
  { w with rows := fun j =>
      if j = chapterId then
        (w.rows chapterId).map (fun ch => completeContentWrite ch finalContent summary)
      else w.rows j }

/-- Source `complete_generation` (stream_manager.py:165-223), with the status update
and cache delete going to the spec-modelled adapters: final content write,
option creation, status COMPLETED, then the unconditional cache delete. -/
def completeGeneration (m : Manager) (w : World) (finalContent : Str)
    (options : List OptionData) (summary : Option Str) :
    Except ManagerErr (Manager × World) :=
  if m.generationStarted = false then
    Except.error (ManagerErr.notStarted "Generation not started.")
  else
    let m1 := { m with contentBuffer := finalContent, contentLength := finalContent.length }
    let w1 := writeFinalContent w m.chapterId finalContent summary
    let w2 := create_chapter_options w1 m.chapterId options
    let w3 := updateChapterStatus w2 m.chapterId ChapterStatus.completed none
    Except.ok (m1, cacheDelete w3 m.chapterId)

/-- Source `ChapterService.update_chapter_content` (chapter.py:54-66): sets
`chapter.content` only; the function has no `content_length` parameter and
never touches that column. -/
def update_chapter_content (row : ChapterRow) (content : Str) : ChapterRow :=
  { row with content := some content }

/-- A committed row outside GENERATING, as left by a failed run. -/
def staleRow : ChapterRow :=
  ⟨1001, 1, "T".data, none, some [], 0, ChapterStatus.failed, none, []⟩

/-! ## append_chunk against the src cache signature (claim C6) -/

/-- The required parameters of the `set_generating_content` actually defined
in src (chapter_cache.py:33-42); none of them has a default. -/
def set_generating_content_params : List String :=
  ["chapter_id", "session_id", "title", "content", "content_length", "novel_id"]

/-- The keyword arguments `append_chunk` passes to that call
(stream_manager.py:130-134). -/
def append_chunk_cache_kwargs : List String :=
  ["chapter_id", "title", "content"]

/-- Python keyword-call binding: the call binds iff every required parameter
is supplied and every supplied keyword names a parameter; otherwise the call
raises TypeError before the callee body runs. -/
def kwCallBinds (required provided : List String) : Bool :=
  required.all (fun p => provided.contains p)
    && provided.all (fun p => required.contains p)

inductive PyErr
  | typeErrorMissingArgs
  | runtimeError (msg : String)
deriving DecidableEq, Repr

/-- Source `append_chunk` (stream_manager.py:113-140) composed with the
`ChapterCacheService.set_generating_content` present in src
(chapter_cache.py:33-73): the in-memory buffer and counter are extended
first (lines 126-127), then the cache call is bound — and raises TypeError,
because the callee requires `session_id`, `content_length` and `novel_id`,
which the call does not pass.  The durable flush of lines 137-140 is never
reached. -/
def appendChunkSrc (m : Manager) (chunk : Str) : Manager × Except PyErr Unit :=
  if m.generationStarted = false then
    (m, Except.error (PyErr.runtimeError
      "Generation not started. Call start_generation() first."))
  else
    let m1 := { m with contentBuffer := m.contentBuffer ++ chunk, contentLength := m.contentLength + chunk.length }
    if kwCallBinds set_generating_content_params append_chunk_cache_kwargs then
      (m1, Except.ok ())
    else (m1, Except.error PyErr.typeErrorMissingArgs)


/-- The keyword arguments `start_generation` passes to
`set_generating_content` (stream_manager.py:85-89) — the same three as
`append_chunk`. -/
def start_generation_cache_kwargs : List String :=
  ["chapter_id", "title", "content"]

/-- Source `start_generation` (stream_manager.py:71-111) composed with the
`ChapterCacheService.set_generating_content` present in src
(chapter_cache.py:33-73): the title and started flag are set first (lines
81-82), then the cache call is bound — and raises TypeError, because the
callee requires `session_id`, `content_length` and `novel_id`, which the
call does not pass.  The title update and the `update_chapter_status` call
of lines 92-109 are never reached, so the world is returned untouched: no
cache entry and no chapter row is written.  There is no live-session check
and no AlreadyGenerating signal anywhere in the body; the continuation past
the cache call (the then-branch) never runs on this source. -/
def startGenerationSrc (m : Manager) (w : World) (title : Str) :
    Manager × World × Except PyErr Unit :=
  let m1 := { m with title := title, generationStarted := true }
  if kwCallBinds set_generating_content_params start_generation_cache_kwargs then
    (m1, w, Except.ok ())
  else (m1, w, Except.error PyErr.typeErrorMissingArgs)

/-- A chapter row with no generation in progress, awaiting a first start. -/
def freshRow : ChapterRow :=
  ⟨1001, 1, "T0".data, none, some [], 0, ChapterStatus.completed, none, []⟩

/-- A world with no cache entry and no live session for chapter 1001. -/
def freshWorld : World :=
  ⟨fun _ => none, fun j => if j = 1001 then some freshRow else none⟩

/-! ## Theorems -/

theorem contentTexts_append (a b : List SSEEvent) :
    contentTexts (a ++ b) = contentTexts a ++ contentTexts b := by
  induction a with
  | nil => rfl
  | cons e rest ih => cases e <;> simp [contentTexts, ih]

theorem Ext.refl (a : Str) : Ext a a := ⟨[], (List.append_nil a).symm⟩

theorem Ext.trans {a b c : Str} (h1 : Ext a b) (h2 : Ext b c) : Ext a c := by
  obtain ⟨t1, rfl⟩ := h1
  obtain ⟨t2, rfl⟩ := h2
  exact ⟨t1 ++ t2, by simp⟩

theorem Ext.length_le {a b : Str} (h : Ext a b) : a.length ≤ b.length := by
  obtain ⟨t, rfl⟩ := h
  simp

theorem Ext.take_eq {a b : Str} (h : Ext a b) : b.take a.length = a := by
  obtain ⟨t, rfl⟩ := h
  simp

/-- Along a chain of growing buffers, the first buffer is extended by the last. -/
theorem chain'_ext_to_getLast :
    ∀ (rest : List RelayEntry) (e glast : RelayEntry),
      List.Chain' (fun a b => Ext a.content b.content) (e :: rest) →
      (e :: rest).getLast? = some glast →
      Ext e.content glast.content := by
  intro rest
  induction rest with
  | nil =>
    intro e glast _ hlast
    rw [List.getLast?_singleton] at hlast
    cases hlast
    exact Ext.refl e.content
  | cons b t2 ih =>
    intro e glast hch hlast
    have h1 : Ext e.content b.content := (List.chain'_cons.mp hch).1
    rw [List.getLast?_cons_cons] at hlast
    exact h1.trans (ih b glast (List.chain'_cons.mp hch).2 hlast)

theorem relayGen_nil (s : RelayState) : relayGen [] s = ([], s, false) := rfl

theorem relayGen_cons (e : RelayEntry) (rest : List RelayEntry) (s : RelayState) :
    relayGen (e :: rest) s =
      if (relayStep (some e) ChapterStatus.generating s).2.2 then
        ((relayStep (some e) ChapterStatus.generating s).1,
         (relayStep (some e) ChapterStatus.generating s).2.1, true)
      else
        ((relayStep (some e) ChapterStatus.generating s).1
           ++ (relayGen rest (relayStep (some e) ChapterStatus.generating s).2.1).1,
         (relayGen rest (relayStep (some e) ChapterStatus.generating s).2.1).2) := rfl

theorem contentTexts_summaryEvs (d : RelayEntry) (s : RelayState) :
    contentTexts (summaryEvs d s) = [] := by
  unfold summaryEvs
  split <;> simp [contentTexts]

theorem relayCacheStep_none (s : RelayState) : relayCacheStep none s = ([], s) := rfl

theorem relayCacheStep_grow (d : RelayEntry) (s : RelayState)
    (hg : s.lastContentLength < d.content.length) :
    relayCacheStep (some d) s =
      (summaryEvs d s ++ [SSEEvent.content (d.content.drop s.lastContentLength)],
       ⟨d.content.length, 0, titleSentAfter d s⟩) := by
  simp [relayCacheStep, hg, summaryEvs, titleSentAfter]

theorem relayCacheStep_stagnant (d : RelayEntry) (s : RelayState)
    (hg : ¬ s.lastContentLength < d.content.length) :
    relayCacheStep (some d) s =
      (summaryEvs d s,
       ⟨s.lastContentLength, s.noUpdateCount + 1, titleSentAfter d s⟩) := by
  simp [relayCacheStep, hg, summaryEvs, titleSentAfter]

theorem relayStep_grow (d : RelayEntry) (s : RelayState)
    (hg : s.lastContentLength < d.content.length) :
    relayStep (some d) ChapterStatus.generating s =
      (summaryEvs d s ++ [SSEEvent.content (d.content.drop s.lastContentLength)],
       ⟨d.content.length, 0, titleSentAfter d s⟩, false) := by
  rw [relayStep, relayCacheStep_grow d s hg]
  simp [MAX_NO_UPDATE]

theorem relayStep_stagnant (d : RelayEntry) (s : RelayState)
    (hg : ¬ s.lastContentLength < d.content.length)
    (hto : s.noUpdateCount + 1 < MAX_NO_UPDATE) :
    relayStep (some d) ChapterStatus.generating s =
      (summaryEvs d s,
       ⟨s.lastContentLength, s.noUpdateCount + 1, titleSentAfter d s⟩, false) := by
  rw [relayStep, relayCacheStep_stagnant d s hg]
  simp only
  rw [if_neg (by simpa using Nat.not_le_of_lt hto)]

theorem relayStep_timeout (d : RelayEntry) (s : RelayState)
    (hg : ¬ s.lastContentLength < d.content.length)
    (hto : MAX_NO_UPDATE ≤ s.noUpdateCount + 1) :
    relayStep (some d) ChapterStatus.generating s =
      (summaryEvs d s ++ [SSEEvent.error "生成超时"],
       ⟨s.lastContentLength, s.noUpdateCount + 1, titleSentAfter d s⟩, true) := by
  rw [relayStep, relayCacheStep_stagnant d s hg]
  simp only
  rw [if_pos (by simpa using hto)]

/-- In every relay iteration, the cursor `last_content_length` advances by
exactly the total length of the `content` texts emitted by that iteration
(in particular it never decreases). -/
theorem relayStep_cursor_advance (obs : Option RelayEntry) (st : ChapterStatus)
    (s : RelayState) :
    (relayStep obs st s).2.1.lastContentLength
      = s.lastContentLength + (contentTexts (relayStep obs st s).1).flatten.length := by
  cases obs with
  | none =>
    cases st <;>
      · rw [relayStep, relayCacheStep_none]
        simp only
        try split
        all_goals simp [contentTexts_append, contentTexts]
  | some d =>
    by_cases hg : s.lastContentLength < d.content.length
    · cases st <;>
        · rw [relayStep, relayCacheStep_grow d s hg]
          simp only
          try split
          all_goals
            simp [contentTexts_append, contentTexts, contentTexts_summaryEvs]
            omega
    · cases st <;>
        · rw [relayStep, relayCacheStep_stagnant d s hg]
          simp only
          try split
          all_goals simp [contentTexts_append, contentTexts, contentTexts_summaryEvs]

/-- The central invariant of the relay loop run from any state whose cursor
does not exceed the first observed buffer, over present, growing buffers:
the emitted `content` texts concatenate to the slice of the final buffer
between the initial and the final cursor, the cursor never decreases and
accounts exactly for the emitted characters, and never exceeds the final
buffer length. -/
theorem relayRun_generating_invariant :
    ∀ (rest : List RelayEntry) (e glast : RelayEntry) (s : RelayState),
      List.Chain' (fun a b => Ext a.content b.content) (e :: rest) →
      (e :: rest).getLast? = some glast →
      s.lastContentLength ≤ e.content.length →
      ((contentTexts (relayGen (e :: rest) s).1).flatten
          = (glast.content.take (relayGen (e :: rest) s).2.1.lastContentLength).drop
              s.lastContentLength)
      ∧ s.lastContentLength ≤ (relayGen (e :: rest) s).2.1.lastContentLength
      ∧ (relayGen (e :: rest) s).2.1.lastContentLength ≤ glast.content.length
      ∧ (relayGen (e :: rest) s).2.1.lastContentLength
          = s.lastContentLength + (contentTexts (relayGen (e :: rest) s).1).flatten.length := by
  intro rest
  induction rest with
  | nil =>
    intro e glast s hchain hlast hle
    rw [List.getLast?_singleton] at hlast
    cases hlast
    have hdropNil : ∀ (L : Str) (n : Nat), n ≤ s.lastContentLength →
        (L.take n).drop s.lastContentLength = [] := by
      intro L n hn
      apply List.drop_eq_nil_of_le
      simp only [List.length_take]
      omega
    by_cases hg : s.lastContentLength < e.content.length
    · rw [relayGen_cons, relayStep_grow e s hg]
      refine ⟨?_, ?_, ?_, ?_⟩ <;>
        simp [relayGen_nil, contentTexts_append, contentTexts_summaryEvs, contentTexts] <;>
        omega
    · have heq : e.content.length = s.lastContentLength := le_antisymm (by omega) hle
      by_cases htimeout : MAX_NO_UPDATE ≤ s.noUpdateCount + 1
      · rw [relayGen_cons, relayStep_timeout e s hg htimeout]
        refine ⟨?_, ?_, ?_, ?_⟩ <;>
          simp [contentTexts_append, contentTexts_summaryEvs, contentTexts,
            hdropNil e.content s.lastContentLength le_rfl] <;>
          omega
      · rw [relayGen_cons, relayStep_stagnant e s hg (by omega)]
        refine ⟨?_, ?_, ?_, ?_⟩ <;>
          simp [relayGen_nil, contentTexts_append, contentTexts_summaryEvs, contentTexts,
            hdropNil e.content s.lastContentLength le_rfl] <;>
          omega
  | cons r rs ih =>
    intro e glast s hchain hlast hle
    rw [List.getLast?_cons_cons] at hlast
    have hab : Ext e.content r.content := (List.chain'_cons.mp hchain).1
    have hchain' : List.Chain' (fun a b => Ext a.content b.content) (r :: rs) :=
      (List.chain'_cons.mp hchain).2
    have hExtLast : Ext e.content glast.content :=
      chain'_ext_to_getLast (r :: rs) e glast hchain (by
        rw [List.getLast?_cons_cons]; exact hlast)
    by_cases hg : s.lastContentLength < e.content.length
    · -- the tick emits the delta and sets the cursor to the observed length
      obtain ⟨hihA, hihB, hihC, hihD⟩ :=
        ih r glast ⟨e.content.length, 0, titleSentAfter e s⟩ hchain' hlast
          (by simpa using hab.length_le)
      dsimp only at hihA hihB hihC hihD
      rw [relayGen_cons, relayStep_grow e s hg]
      simp only [Bool.false_eq_true, if_false]
      have hM : e.content.length
          ≤ (relayGen (r :: rs) ⟨e.content.length, 0, titleSentAfter e s⟩).2.1.lastContentLength :=
        hihB
      constructor
      · rw [contentTexts_append, contentTexts_append, contentTexts_summaryEvs]
        simp only [List.nil_append, contentTexts, List.flatten_cons]
        have hsplit : (glast.content.take (relayGen (r :: rs)
            ⟨e.content.length, 0, titleSentAfter e s⟩).2.1.lastContentLength).drop
              s.lastContentLength
            = e.content.drop s.lastContentLength
              ++ (glast.content.take (relayGen (r :: rs)
                  ⟨e.content.length, 0, titleSentAfter e s⟩).2.1.lastContentLength).drop
                    e.content.length := by
          conv =>
            lhs
            rw [← List.take_append_drop e.content.length (glast.content.take (relayGen (r :: rs)
              ⟨e.content.length, 0, titleSentAfter e s⟩).2.1.lastContentLength)]
          rw [List.drop_append_of_le_length (by
            rw [List.length_take, List.length_take]
            omega)]
          rw [List.take_take, min_eq_left hM, hExtLast.take_eq]
        rw [hsplit]
        simp only [List.flatten_append, List.flatten_cons, List.flatten_nil, List.append_nil,
          List.nil_append]
        rw [hihA]
      · refine ⟨le_trans (le_of_lt hg) hM, hihC, ?_⟩
        rw [contentTexts_append, contentTexts_append, contentTexts_summaryEvs]
        simp only [List.nil_append, contentTexts, List.flatten_append, List.flatten_cons,
          List.flatten_nil, List.append_nil, List.length_append, List.length_drop]
        omega
    · -- stagnant tick: the cursor stays, the no-update counter advances
      have heq : e.content.length = s.lastContentLength := le_antisymm (by omega) hle
      by_cases htimeout : MAX_NO_UPDATE ≤ s.noUpdateCount + 1
      · rw [relayGen_cons, relayStep_timeout e s hg htimeout]
        have hdropNil : (glast.content.take s.lastContentLength).drop s.lastContentLength
            = [] := by
          apply List.drop_eq_nil_of_le
          simp only [List.length_take]
          omega
        refine ⟨?_, le_refl _, ?_, ?_⟩
        · simp [contentTexts_append, contentTexts_summaryEvs, contentTexts, hdropNil]
        · exact le_trans hle (heq ▸ hExtLast.length_le)
        · simp [contentTexts_append, contentTexts_summaryEvs, contentTexts]
      · obtain ⟨hihA, hihB, hihC, hihD⟩ :=
          ih r glast ⟨s.lastContentLength, s.noUpdateCount + 1, titleSentAfter e s⟩ hchain'
            hlast (by simpa using le_trans hle hab.length_le)
        rw [relayGen_cons, relayStep_stagnant e s hg (by omega)]
        simp only [Bool.false_eq_true, if_false]
        refine ⟨?_, hihB, hihC, ?_⟩
        · rw [contentTexts_append, contentTexts_summaryEvs]
          simpa using hihA
        · rw [contentTexts_append, contentTexts_summaryEvs]
          simpa using hihD

/-- C1: for a relay instance (stream_to_client's polling loop) polling one
chapter in GENERATING status whose cached content only grows, the
concatenation of the texts of all emitted `content` events equals the
accumulated content at the time of the last emission (the prefix of the final
buffer of length the final cursor), the sum of their lengths equals that
length, and in every iteration the cursor `last_content_length` is
non-decreasing and advances by exactly the total length of the emitted
delta texts — no character is delivered twice and none is skipped. -/
theorem relay_delta_stream_exact
    (e0 : RelayEntry) (rest : List RelayEntry) (glast : RelayEntry)
    (hchain : List.Chain' (fun a b => Ext a.content b.content) (e0 :: rest))
    (hlast : (e0 :: rest).getLast? = some glast) :
    ((contentTexts (relayGen (e0 :: rest) relayInit).1).flatten
        = glast.content.take (relayGen (e0 :: rest) relayInit).2.1.lastContentLength)
    ∧ ((contentTexts (relayGen (e0 :: rest) relayInit).1).flatten.length
        = (relayGen (e0 :: rest) relayInit).2.1.lastContentLength)
    ∧ (∀ (obs : Option RelayEntry) (st : ChapterStatus) (s : RelayState),
        s.lastContentLength ≤ (relayStep obs st s).2.1.lastContentLength
        ∧ (relayStep obs st s).2.1.lastContentLength
            = s.lastContentLength
              + (contentTexts (relayStep obs st s).1).flatten.length) := by
  obtain ⟨hA, hB, hC, hD⟩ :=
    relayRun_generating_invariant rest e0 glast relayInit hchain hlast
      (by simp [relayInit])
  refine ⟨?_, ?_, ?_⟩
  · simpa [relayInit] using hA
  · simpa [relayInit] using hD.symm
  · intro obs st s
    have h2 := relayStep_cursor_advance obs st s
    exact ⟨by omega, h2⟩

/-- Witness for C1 at a concrete growing two-tick trace. -/
theorem relay_delta_stream_exact_witness :
    (contentTexts
        (relayGen [⟨[], "ab".data⟩, ⟨"T".data, "abcd".data⟩] relayInit).1).flatten
      = "abcd".data
    ∧ (contentTexts
        (relayGen [⟨[], "ab".data⟩, ⟨"T".data, "abcd".data⟩] relayInit).1).flatten.length
      = (relayGen [⟨[], "ab".data⟩, ⟨"T".data, "abcd".data⟩]
          relayInit).2.1.lastContentLength := by
  have h := relay_delta_stream_exact ⟨[], "ab".data⟩ [⟨"T".data, "abcd".data⟩]
    ⟨"T".data, "abcd".data⟩
    (List.chain'_cons.mpr ⟨⟨"cd".data, by decide⟩, List.chain'_singleton _⟩)
    (by decide)
  exact ⟨h.1.trans (by decide), h.2.1⟩

/-! ## Relay timeout behaviour (claim C3)

The timeout counter `no_update_count` is incremented only inside the
`if data_str:` branch (stream_manager.py:333-354): a poll tick on which the
cache entry is absent leaves the counter untouched, so a relay polling a
chapter stuck in GENERATING with no cache entry never times out. -/

theorem relayRun_cons (t : Option RelayEntry × ChapterStatus)
    (rest : List (Option RelayEntry × ChapterStatus)) (s : RelayState) :
    relayRun (t :: rest) s =
      if (relayStep t.1 t.2 s).2.2 then
        ((relayStep t.1 t.2 s).1, (relayStep t.1 t.2 s).2.1, true)
      else
        ((relayStep t.1 t.2 s).1 ++ (relayRun rest (relayStep t.1 t.2 s).2.1).1,
         (relayRun rest (relayStep t.1 t.2 s).2.1).2) := rfl

/-- An absent-cache tick in GENERATING status emits nothing, keeps the whole
relay state (counter included) and does not stop the loop. -/
theorem relayStep_absent (s : RelayState) (h : s.noUpdateCount < MAX_NO_UPDATE) :
    relayStep none ChapterStatus.generating s = ([], s, false) := by
  rw [relayStep, relayCacheStep_none]
  simp only
  rw [if_neg (by omega)]

/-- Any number of absent-cache GENERATING ticks leaves the relay exactly where
it started: no events, no timeout, still polling. -/
theorem relayRun_absent (k : Nat) (s : RelayState)
    (h : s.noUpdateCount < MAX_NO_UPDATE) :
    relayRun (List.replicate k ((none : Option RelayEntry), ChapterStatus.generating)) s
      = ([], s, false) := by
  induction k with
  | zero => rfl
  | succ n ih =>
    rw [List.replicate_succ, relayRun_cons]
    simp only [relayStep_absent s h, Bool.false_eq_true, if_false, ih, List.append_nil]

/-- Counterexample to C3 as stated: 601 consecutive poll ticks on which the
cache entry is absent (and the chapter stays GENERATING) produce no event at
all — in particular no timeout `error` — and the relay has not stopped. -/
theorem relay_timeout_absent_cache_counterexample :
    relayRun
        (List.replicate 601 ((none : Option RelayEntry), ChapterStatus.generating))
        relayInit
      = ([], relayInit, false) :=
  relayRun_absent 601 relayInit (by decide)

/-- When the cache entry is present on every tick but stagnant, the timeout
counter advances each tick and the relay emits the timeout `error` and stops
as soon as the counter reaches `MAX_NO_UPDATE`. -/
theorem relayRun_stagnant_fires (k : Nat) :
    ∀ (s : RelayState) (e : RelayEntry), e.title = [] →
      e.content.length ≤ s.lastContentLength →
      s.noUpdateCount < MAX_NO_UPDATE →
      MAX_NO_UPDATE ≤ s.noUpdateCount + k →
      relayRun (List.replicate k ((some e : Option RelayEntry),
          ChapterStatus.generating)) s
        = ([SSEEvent.error "生成超时"],
           ⟨s.lastContentLength, MAX_NO_UPDATE, s.titleSent⟩, true) := by
  induction k with
  | zero =>
    intro s e _ _ h1 h2
    exfalso
    omega
  | succ n ih =>
    intro s e ht hlen h1 h2
    rw [List.replicate_succ, relayRun_cons]
    have hg : ¬ s.lastContentLength < e.content.length := by omega
    have hsum : summaryEvs e s = [] := by simp [summaryEvs, ht]
    have hts : titleSentAfter e s = s.titleSent := by simp [titleSentAfter, ht]
    by_cases hfire : MAX_NO_UPDATE ≤ s.noUpdateCount + 1
    · rw [relayStep_timeout e s hg hfire]
      simp only [hsum, hts, List.nil_append, if_true]
      have hcount : s.noUpdateCount + 1 = MAX_NO_UPDATE := by omega
      rw [hcount]
    · rw [relayStep_stagnant e s hg (by omega)]
      simp only [hsum, hts, Bool.false_eq_true, if_false, List.nil_append]
      rw [ih ⟨s.lastContentLength, s.noUpdateCount + 1, s.titleSent⟩ e ht hlen
        (by simpa using by omega) (by simpa using by omega)]

/-- C3 (amended): the relay times out after `MAX_NO_UPDATE = 600` consecutive
no-delta ticks on which the cache entry is PRESENT — emitting exactly one
timeout `error` event and stopping — while ticks on which the cache entry is
absent do not advance the timeout counter (they leave the relay state
unchanged and emit nothing), so a permanently absent cache entry leaves the
relay polling without a terminal event. -/
theorem relay_timeout_present_ticks
    (e : RelayEntry) (s : RelayState) (k : Nat)
    (ht : e.title = []) (hlen : e.content.length ≤ s.lastContentLength)
    (hc : s.noUpdateCount < MAX_NO_UPDATE) (hk : MAX_NO_UPDATE ≤ s.noUpdateCount + k) :
    (relayRun (List.replicate k ((some e : Option RelayEntry),
        ChapterStatus.generating)) s
      = ([SSEEvent.error "生成超时"],
         ⟨s.lastContentLength, MAX_NO_UPDATE, s.titleSent⟩, true))
    ∧ (∀ s' : RelayState, s'.noUpdateCount < MAX_NO_UPDATE →
        relayStep none ChapterStatus.generating s' = ([], s', false)) :=
  ⟨relayRun_stagnant_fires k s e ht hlen hc hk, fun s' h => relayStep_absent s' h⟩

/-- Witness for C3's amended theorem at a concrete stagnant 600-tick trace. -/
theorem relay_timeout_present_ticks_witness :
    relayRun (List.replicate 600 ((some ⟨[], "ab".data⟩ : Option RelayEntry),
        ChapterStatus.generating)) ⟨2, 0, true⟩
      = ([SSEEvent.error "生成超时"], ⟨2, MAX_NO_UPDATE, true⟩, true) :=
  (relay_timeout_present_ticks ⟨[], "ab".data⟩ ⟨2, 0, true⟩ 600 rfl (by decide)
    (by decide) (by decide)).1

theorem chunk5_flatten (l : Str) : (chunk5 l).flatten = l := by
  have H : ∀ (n : Nat) (l : Str), l.length ≤ n → (chunk5 l).flatten = l := by
    intro n
    induction n with
    | zero =>
      intro l hl
      have hnil : l = [] := List.eq_nil_of_length_eq_zero (Nat.le_zero.mp hl)
      subst hnil
      rw [chunk5]
      simp
    | succ m ih =>
      intro l hl
      by_cases h : l = []
      · subst h
        rw [chunk5]
        simp
      · rw [chunk5, dif_neg h]
        have hpos : 0 < l.length := List.length_pos.mpr h
        rw [List.flatten_cons, ih (l.drop 5) (by simp only [List.length_drop]; omega)]
        exact List.take_append_drop 5 l
  exact H l.length l le_rfl

theorem contentTexts_map_content (ls : List Str) :
    contentTexts (ls.map SSEEvent.content) = ls := by
  induction ls with
  | nil => rfl
  | cons a t ih => simp [contentTexts, ih]

theorem contentTexts_statusNote_cons (m : String) (rest : List SSEEvent) :
    contentTexts (SSEEvent.statusNote m :: rest) = contentTexts rest := rfl

theorem contentTexts_statusTail (row : Option ChapterRow) (st : ChapterStatus) :
    contentTexts
        (match st with
         | ChapterStatus.completed => completeTailEvents row
         | ChapterStatus.generating => [SSEEvent.generatingNote]
         | ChapterStatus.failed => [SSEEvent.error chapterFailedMsg]) = [] := by
  cases st with
  | completed =>
    cases row with
    | none => rfl
    | some ch =>
      rw [completeTailEvents]
      by_cases h : ch.options ≠ []
      · rw [if_pos h]
        rfl
      · rw [if_neg h]
        rfl
  | generating => rfl
  | failed => rfl

/-- Behaviour of the delivery phase when the stored length agrees with the
content (the well-formed case). -/
theorem reconnectDeliver_spec (content : Str) (row : Option ChapterRow)
    (cacheStatus : Option ChapterStatus) (k : Nat) :
    (k < content.length →
        contentTexts (reconnectDeliver content content.length row cacheStatus k)
          = chunk5 (content.drop k)
      ∧ (contentTexts (reconnectDeliver content content.length row cacheStatus k)).flatten
          = content.drop k)
    ∧ (content.length ≤ k →
        contentTexts (reconnectDeliver content content.length row cacheStatus k) = []
      ∧ reconnectDeliver content content.length row cacheStatus k
          = [SSEEvent.statusNote "已是最新内容", noDiffTailEvent cacheStatus row]) := by
  constructor
  · intro hk
    rw [reconnectDeliver, if_neg (by omega)]
    constructor
    · rw [contentTexts_statusNote_cons, contentTexts_append, contentTexts_map_content,
        contentTexts_statusTail]
      simp
    · rw [contentTexts_statusNote_cons, contentTexts_append, contentTexts_map_content,
        contentTexts_statusTail]
      simp [chunk5_flatten]
  · intro hk
    rw [reconnectDeliver, if_pos hk]
    refine ⟨?_, rfl⟩
    rw [contentTexts_statusNote_cons]
    unfold noDiffTailEvent
    cases resolveStatus cacheStatus row <;> rfl

/-- C2: for a reconnect request with resume length `k` whose session check
passes, against a well-formed content source (stored length equal to the
content length; cache preferred, durable store as fallback): if
`k < len(C)` the `content` events are exactly the 5-character slices of
`C[k:]` and concatenate to `C[k:]`; if `k ≥ len(C)` a status notice is
emitted, zero content events follow, and the follow-up event is `complete`
when the resolved status is COMPLETED, the `generating` notice when
GENERATING, and `error` when FAILED. -/
theorem reconnect_resume_correct
    (cached : Option GenEntry) (row : Option ChapterRow)
    (cacheStatus : Option ChapterStatus) (sid : String) (k : Nat)
    (hwfC : ∀ e, cached = some e → e.contentLength = e.content.length)
    (hwfR : ∀ ch, row = some ch → ch.contentLength = (ch.content.getD []).length)
    (hsessC : ∀ e, cached = some e → e.sessionId = sid)
    (hsessR : cached = none → ∀ ch, row = some ch → dbSessionRejected ch sid = false)
    (hsrc : cached.isSome ∨ row.isSome) :
    (k < (currentContent cached row).length →
        contentTexts (reconnectStream cached row cacheStatus sid k)
          = chunk5 ((currentContent cached row).drop k)
      ∧ (contentTexts (reconnectStream cached row cacheStatus sid k)).flatten
          = (currentContent cached row).drop k)
    ∧ ((currentContent cached row).length ≤ k →
        contentTexts (reconnectStream cached row cacheStatus sid k) = []
      ∧ reconnectStream cached row cacheStatus sid k
          = [SSEEvent.statusNote "已是最新内容", noDiffTailEvent cacheStatus row]) := by
  cases cached with
  | some e =>
    have hred : reconnectStream (some e) row cacheStatus sid k
        = reconnectDeliver e.content e.contentLength row cacheStatus k := by
      show (if e.sessionId ≠ sid then [SSEEvent.error staleSessionMsg]
            else reconnectDeliver e.content e.contentLength row cacheStatus k) = _
      rw [if_neg (by simp [hsessC e rfl])]
    have hC : currentContent (some e) row = e.content := rfl
    rw [hred, hwfC e rfl, hC]
    exact reconnectDeliver_spec e.content row cacheStatus k
  | none =>
    cases row with
    | none => simp at hsrc
    | some ch =>
      have hrej : dbSessionRejected ch sid = false := hsessR rfl ch rfl
      have hred : reconnectStream none (some ch) cacheStatus sid k
          = reconnectDeliver (ch.content.getD []) ch.contentLength (some ch)
              cacheStatus k := by
        show (if dbSessionRejected ch sid then [SSEEvent.error staleSessionMsg]
              else reconnectDeliver (ch.content.getD []) ch.contentLength (some ch)
                cacheStatus k) = _
        rw [hrej]
        rfl
      have hC : currentContent none (some ch) = ch.content.getD [] := rfl
      rw [hred, hwfR ch rfl, hC]
      exact reconnectDeliver_spec (ch.content.getD []) (some ch) cacheStatus k

/-- Witness for C2: a cache-hit reconnect at `k = 3` over 8 characters of
content delivers exactly the missing suffix, and at `k = 10` delivers zero
content with the `generating` notice. -/
theorem reconnect_resume_correct_witness :
    (contentTexts (reconnectStream (some ⟨1001, 1, "s1", "T".data, "abcdefgh".data, 8⟩)
        none (some ChapterStatus.generating) "s1" 3)).flatten
      = "defgh".data
    ∧ reconnectStream (some ⟨1001, 1, "s1", "T".data, "abcdefgh".data, 8⟩)
        none (some ChapterStatus.generating) "s1" 10
      = [SSEEvent.statusNote "已是最新内容", SSEEvent.generatingNote] := by
  constructor
  · have h := reconnect_resume_correct
      (some ⟨1001, 1, "s1", "T".data, "abcdefgh".data, 8⟩) none
      (some ChapterStatus.generating) "s1" 3
      (fun e he => by cases he; decide)
      (fun ch hch => Option.noConfusion hch)
      (fun e he => by cases he; rfl)
      (fun h => Option.noConfusion h)
      (Or.inl rfl)
    exact ((h.1 (by decide)).2).trans (by decide)
  · have h := reconnect_resume_correct
      (some ⟨1001, 1, "s1", "T".data, "abcdefgh".data, 8⟩) none
      (some ChapterStatus.generating) "s1" 10
      (fun e he => by cases he; decide)
      (fun ch hch => Option.noConfusion hch)
      (fun e he => by cases he; rfl)
      (fun h => Option.noConfusion h)
      (Or.inl rfl)
    exact ((h.2 (by decide)).2).trans (by decide)

/-- C10: resume-token round trip — verifying a token minted by
`create_resume_token` with the same secret key, strictly before its
10-minute expiry, returns the payload with exactly the minted fields and
`type = "resume"`; and verification returns `None` for any expired token,
any token signed with a different key, any token whose type is not
`"resume"`, and any token missing one of the five required fields. -/
theorem jwtDecode_badkey (t : SignedToken) (key : String) (now : Int)
    (hsig : t.signedWith ≠ key) : jwtDecode t key now = none := by
  rw [jwtDecode, if_pos hsig]

theorem jwtDecode_expired (t : SignedToken) (key : String) (now e : Int)
    (hexp : t.payload.exp = some e) (hle : e ≤ now) : jwtDecode t key now = none := by
  rw [jwtDecode, hexp]
  by_cases hsig : t.signedWith ≠ key
  · rw [if_pos hsig]
  · rw [if_neg hsig]
    simp only
    rw [if_pos hle]

theorem jwtDecode_payload (t : SignedToken) (key : String) (now : Int)
    (p : TokenPayload) (h : jwtDecode t key now = some p) : p = t.payload := by
  rw [jwtDecode] at h
  by_cases hsig : t.signedWith ≠ key
  · rw [if_pos hsig] at h
    cases h
  · rw [if_neg hsig] at h
    cases hexp : t.payload.exp with
    | none =>
      rw [hexp] at h
      injection h with h2
      exact h2.symm
    | some e =>
      rw [hexp] at h
      simp only at h
      by_cases hle : e ≤ now
      · rw [if_pos hle] at h
        cases h
      · rw [if_neg hle] at h
        injection h with h2
        exact h2.symm

/-- C10: resume-token round trip — verifying a token minted by
`create_resume_token` with the same secret key, strictly before its
10-minute expiry, returns the payload with exactly the minted fields and
`type = "resume"`; and verification returns `None` for any expired token,
any token signed with a different key, any token whose type is not
`"resume"`, and any token missing one of the five required fields. -/
theorem resume_token_round_trip :
    (∀ (cid : Int) (sid : String) (nid uid slen now now' : Int) (key : String),
        now' < now + RESUME_TOKEN_TTL →
        verify_resume_token (create_resume_token cid sid nid uid slen now key) key now'
          = some { chapterId := some cid, sessionId := some sid, novelId := some nid,
                   userId := some uid, sentLength := some slen, typ := some "resume",
                   iat := some now, exp := some (now + RESUME_TOKEN_TTL) })
    ∧ (∀ (t : SignedToken) (key : String) (now e : Int),
        t.payload.exp = some e → e ≤ now → verify_resume_token t key now = none)
    ∧ (∀ (t : SignedToken) (key : String) (now : Int),
        t.signedWith ≠ key → verify_resume_token t key now = none)
    ∧ (∀ (t : SignedToken) (key : String) (now : Int),
        t.payload.typ ≠ some "resume" → verify_resume_token t key now = none)
    ∧ (∀ (t : SignedToken) (key : String) (now : Int),
        (t.payload.chapterId = none ∨ t.payload.sessionId = none
          ∨ t.payload.novelId = none ∨ t.payload.userId = none
          ∨ t.payload.sentLength = none) →
        verify_resume_token t key now = none) := by
  refine ⟨?_, ?_, ?_, ?_, ?_⟩
  · intro cid sid nid uid slen now now' key h
    rw [verify_resume_token, create_resume_token, jwtDecode]
    simp only
    rw [if_neg (show ¬ (key ≠ key) from fun hn => hn rfl)]
    rw [if_neg (show ¬ (now + RESUME_TOKEN_TTL ≤ now') by omega)]
    rfl
  · intro t key now e hexp hle
    rw [verify_resume_token, jwtDecode_expired t key now e hexp hle]
  · intro t key now hsig
    rw [verify_resume_token, jwtDecode_badkey t key now hsig]
  · intro t key now htyp
    rw [verify_resume_token]
    cases hdec : jwtDecode t key now with
    | none => rfl
    | some p =>
      simp only
      rw [if_pos (by rw [jwtDecode_payload t key now p hdec]; exact htyp)]
  · intro t key now hmiss
    rw [verify_resume_token]
    cases hdec : jwtDecode t key now with
    | none => rfl
    | some p =>
      have hp := jwtDecode_payload t key now p hdec
      simp only
      by_cases htyp : p.typ ≠ some "resume"
      · rw [if_pos htyp]
      · rw [if_neg htyp, if_pos (by rw [hp]; exact hmiss)]

/-- Witness for C10 at concrete fields, a fresh and an expired instant. -/
theorem resume_token_round_trip_witness :
    verify_resume_token (create_resume_token 1001 "s1" 1 7 50 0 "k") "k" 100
      = some { chapterId := some 1001, sessionId := some "s1", novelId := some 1,
               userId := some 7, sentLength := some 50, typ := some "resume",
               iat := some 0, exp := some (0 + RESUME_TOKEN_TTL) }
    ∧ verify_resume_token (create_resume_token 1001 "s1" 1 7 50 0 "k") "k" 600 = none
    ∧ verify_resume_token (create_resume_token 1001 "s1" 1 7 50 0 "k") "other" 100 = none :=
  ⟨resume_token_round_trip.1 1001 "s1" 1 7 50 0 100 "k" (by decide),
   resume_token_round_trip.2.1 (create_resume_token 1001 "s1" 1 7 50 0 "k") "k" 600
     (0 + RESUME_TOKEN_TTL) rfl (by decide),
   resume_token_round_trip.2.2.1 (create_resume_token 1001 "s1" 1 7 50 0 "k") "other" 100
     (by decide)⟩

/-- Counterexample to C4 as stated: a reconnect with a valid token for
session "s1" against a chapter whose current cached session is "s2" is NOT
rejected with an HTTP 400 response — the endpoint returns the HTTP-200 event
stream (`Except.ok`), whose sole event is an SSE `error` carrying the
stale-session detail. -/
theorem reconnect_stale_session_counterexample :
    reconnect_chapter_generation (create_resume_token 1001 "s1" 1 7 0 0 "k") "k" 100 7 1
        (some ⟨1001, 1, "s2", "T".data, "abc".data, 3⟩) none
        (some ChapterStatus.generating)
      = Except.ok [SSEEvent.error staleSessionMsg] := rfl

/-- C4 (amended): a reconnect whose token session differs from the chapter's
current session (cache entry session when the cache hits, else a non-empty
durable session id) delivers zero `content` events: the generator emits a
single SSE `error` event with the stale-session detail on the HTTP-200
stream (the `HTTPException(400)` is raised and caught inside the generator,
not returned as an HTTP 400 response). -/
theorem reconnect_stale_session_error_event
    (cached : Option GenEntry) (row : Option ChapterRow)
    (cacheStatus : Option ChapterStatus) (sid : String) (k : Nat) :
    (∀ e, cached = some e → e.sessionId ≠ sid →
        reconnectStream cached row cacheStatus sid k = [SSEEvent.error staleSessionMsg])
    ∧ (∀ ch, cached = none → row = some ch → dbSessionRejected ch sid = true →
        reconnectStream cached row cacheStatus sid k
          = [SSEEvent.error staleSessionMsg]) := by
  constructor
  · intro e he hne
    subst he
    show (if e.sessionId ≠ sid then [SSEEvent.error staleSessionMsg] else _) = _
    rw [if_pos hne]
  · intro ch hc hr hrej
    subst hc
    subst hr
    show (if dbSessionRejected ch sid = true then [SSEEvent.error staleSessionMsg]
          else _) = _
    rw [if_pos hrej]

/-- Witness for C4's amended theorem at the counterexample's input. -/
theorem reconnect_stale_session_error_event_witness :
    reconnectStream (some ⟨1001, 1, "s2", "T".data, "abc".data, 3⟩) none
        (some ChapterStatus.generating) "s1" 0
      = [SSEEvent.error staleSessionMsg] :=
  (reconnect_stale_session_error_event (some ⟨1001, 1, "s2", "T".data, "abc".data, 3⟩)
      none (some ChapterStatus.generating) "s1" 0).1
    ⟨1001, 1, "s2", "T".data, "abc".data, 3⟩ rfl (by decide)

/-- Counterexample to C5 as stated: against the live world for chapter 1001
(session "s1" live in cache and row), a second `start_generation` under
session "s2" does not fail with AlreadyGenerating — and the first start does
not proceed normally either: both the duplicate and a fresh first start set
the manager's title and started flag and then raise TypeError at the src
`set_generating_content` call, before any cache or durable write, leaving
the world untouched (no second session installed). -/
theorem start_generation_duplicate_counterexample :
    startGenerationSrc (Manager.init 1001 1 "s2") liveWorld "T2".data
      = (⟨1001, 1, "s2", "T2".data, [], 0, 0, true⟩, liveWorld,
         Except.error PyErr.typeErrorMissingArgs)
    ∧ startGenerationSrc (Manager.init 1001 1 "s1") freshWorld "T1".data
      = (⟨1001, 1, "s1", "T1".data, [], 0, 0, true⟩, freshWorld,
         Except.error PyErr.typeErrorMissingArgs) :=
  ⟨rfl, rfl⟩

/-- C5 (amended): `start_generation` contains no live-session check and no
AlreadyGenerating signal exists anywhere in the code; on this snapshot every
start — a duplicate start for a chapter with a live session exactly like a
first start — sets the manager's title and started flag and then raises
TypeError at the src `set_generating_content` call (whose required
`session_id`, `content_length` and `novel_id` are not passed), before any
cache or durable write: no second active session is created, but not by a
duplicate-start rejection — the failure is the C6 signature mismatch and
strikes every start alike. -/
theorem start_generation_no_duplicate_guard (m : Manager) (w : World) (title : Str) :
    startGenerationSrc m w title
      = ({ m with title := title, generationStarted := true }, w,
         Except.error PyErr.typeErrorMissingArgs)
    ∧ kwCallBinds set_generating_content_params start_generation_cache_kwargs
        = false := by
  constructor
  · rw [startGenerationSrc, if_neg (by decide)]
  · rfl

/-- C7: `fail_generation` is an idempotent no-op before `start_generation`;
on a started session it deletes the cache entry unconditionally — also when
the FAILED status write fails (the failure is swallowed, the durable rows
left untouched, and nothing is raised) — and when the status write succeeds
it marks the chapter row FAILED. -/
theorem fail_generation_best_effort (m : Manager) (w : World) (f : Bool) :
    (m.generationStarted = false → failGeneration m w f = (m, w))
    ∧ (m.generationStarted = true →
        (failGeneration m w f).2.cacheGen m.chapterId = none)
    ∧ (m.generationStarted = true → f = true →
        (failGeneration m w f).2.rows = w.rows)
    ∧ (m.generationStarted = true → f = false →
        ∀ ch, w.rows m.chapterId = some ch →
          (failGeneration m w f).2.rows m.chapterId
            = some { ch with status := ChapterStatus.failed }) := by
  refine ⟨?_, ?_, ?_, ?_⟩
  · intro h
    rw [failGeneration, if_pos h]
  · intro h
    rw [failGeneration, if_neg (by simp [h])]
    simp [cacheDelete]
  · intro h hf
    subst hf
    rw [failGeneration, if_neg (by simp [h])]
    rfl
  · intro h hf ch hch
    subst hf
    rw [failGeneration, if_neg (by simp [h])]
    simp [cacheDelete, updateChapterStatus, hch]

/-- Witness for C7 at concrete managers and the live world. -/
theorem fail_generation_best_effort_witness :
    failGeneration (Manager.init 1001 1 "s1") liveWorld true
        = (Manager.init 1001 1 "s1", liveWorld)
    ∧ (failGeneration ⟨1001, 1, "s1", "T".data, "abc".data, 3, 0, true⟩
        liveWorld true).2.rows = liveWorld.rows
    ∧ (failGeneration ⟨1001, 1, "s1", "T".data, "abc".data, 3, 0, true⟩
        liveWorld false).2.rows 1001
      = some { liveRow with status := ChapterStatus.failed } := by
  refine ⟨?_, ?_, ?_⟩
  · exact (fail_generation_best_effort (Manager.init 1001 1 "s1") liveWorld true).1 rfl
  · exact (fail_generation_best_effort ⟨1001, 1, "s1", "T".data, "abc".data, 3, 0, true⟩
      liveWorld true).2.2.1 rfl rfl
  · exact (fail_generation_best_effort ⟨1001, 1, "s1", "T".data, "abc".data, 3, 0, true⟩
      liveWorld false).2.2.2 rfl rfl liveRow (by decide)

/-- C8: after any terminal transition — the cache service's own
`complete_generation` and `fail_generation`, and the manager's
`complete_generation` and `fail_generation` (on a started session) — a
subsequent cache get for the chapter's generating content returns absent. -/
theorem terminal_transition_cache_absent
    (st : CacheSrcState) (cid : Nat) (msg : String)
    (m : Manager) (w : World) (fc : Str) (opts : List OptionData)
    (sm : Option Str) (f : Bool) (hstart : m.generationStarted = true) :
    cacheSvcGetGenerating (cacheSvcComplete st cid) cid = none
    ∧ cacheSvcGetGenerating (cacheSvcFail st cid msg) cid = none
    ∧ (∃ m' w', completeGeneration m w fc opts sm = Except.ok (m', w')
        ∧ w'.cacheGen m.chapterId = none)
    ∧ (failGeneration m w f).2.cacheGen m.chapterId = none := by
  refine ⟨?_, ?_, ?_, ?_⟩
  · simp [cacheSvcGetGenerating, cacheSvcComplete]
  · simp [cacheSvcGetGenerating, cacheSvcFail]
  · rw [completeGeneration, if_neg (by simp [hstart])]
    exact ⟨_, _, rfl, by simp [cacheDelete]⟩
  · rw [failGeneration, if_neg (by simp [hstart])]
    simp [cacheDelete]

/-- Witness for C8 at a concrete cache state, manager and world. -/
theorem terminal_transition_cache_absent_witness :
    cacheSvcGetGenerating
        (cacheSvcComplete ⟨fun _ => none, fun _ => none, fun _ => none⟩ 1001) 1001
      = none
    ∧ (failGeneration ⟨1001, 1, "s1", "T".data, "abc".data, 3, 0, true⟩
        liveWorld false).2.cacheGen 1001 = none := by
  have h := terminal_transition_cache_absent
    ⟨fun _ => none, fun _ => none, fun _ => none⟩ 1001 "boom"
    ⟨1001, 1, "s1", "T".data, "abc".data, 3, 0, true⟩ liveWorld "x".data [] none
    false rfl
  exact ⟨h.1, h.2.2.2⟩

/-- Counterexample to C9 as stated: writing five characters of content
through `update_chapter_content` to a FAILED (non-GENERATING) row leaves
`content_length = 0 ≠ 5 = len(content)` — a durable content write that does
not keep `content_length` in sync. -/
theorem update_content_length_out_of_sync_counterexample :
    (update_chapter_content staleRow "abcde".data).status ≠ ChapterStatus.generating
    ∧ (update_chapter_content staleRow "abcde".data).contentLength = 0
    ∧ ((update_chapter_content staleRow "abcde".data).content.getD []).length = 5
    ∧ ¬ ((update_chapter_content staleRow "abcde".data).contentLength
          = ((update_chapter_content staleRow "abcde".data).content.getD []).length) := by
  exact ⟨by decide, rfl, by decide, by decide⟩

/-- C9 (amended): the completion write of `complete_generation` keeps
`content_length = len(content)`, but `ChapterService.update_chapter_content`
(the mid-generation flush path) writes `content` while leaving
`content_length` unchanged, so only the completion write maintains the
sync invariant. -/
theorem content_length_sync_amended :
    (∀ (row : ChapterRow) (fc : Str) (sm : Option Str),
        (completeContentWrite row fc sm).contentLength
          = ((completeContentWrite row fc sm).content.getD []).length
        ∧ (completeContentWrite row fc sm).content = some fc)
    ∧ (∀ (row : ChapterRow) (c : Str),
        (update_chapter_content row c).content = some c
        ∧ (update_chapter_content row c).contentLength = row.contentLength) :=
  ⟨fun _ _ _ => ⟨rfl, rfl⟩, fun _ _ => ⟨rfl, rfl⟩⟩

/-- C6 (code evaluated at the failing input): the cache call of
`append_chunk` does not bind — `session_id`, `content_length` and `novel_id`
are required by the src `set_generating_content` but not passed — so every
`append_chunk` on a started session extends the buffer and then raises
TypeError instead of overwriting the cache; before `start_generation` it
raises the NotStarted RuntimeError as the claim states. -/
theorem append_chunk_cache_call_type_error :
    kwCallBinds set_generating_content_params append_chunk_cache_kwargs = false
    ∧ appendChunkSrc ⟨1001, 1, "s1", "T".data, [], 0, 0, true⟩ "He drew".data
      = (⟨1001, 1, "s1", "T".data, "He drew".data, 7, 0, true⟩,
         Except.error PyErr.typeErrorMissingArgs)
    ∧ (appendChunkSrc ⟨1001, 1, "s1", "T".data, [], 0, 0, false⟩ "He drew".data).2
      = Except.error (PyErr.runtimeError
          "Generation not started. Call start_generation() first.") :=
  ⟨rfl, rfl, rfl⟩

end Inkflow
